import Mathlib

/-!
Verification of the DIMSE layer of a DICOM network library (dimse.go and
the sample server's C-MOVE/C-GET handler), as a shallow embedding.

The external dicom element codec (implicit-VR little-endian byte
serialization of data elements) is an out-of-scope library; the embedding
therefore works at data-element granularity: a DIMSE "byte stream" is a
`List DicomElement`, and concatenation of PDV value fragments is list
append.  Machine integers (uint16/uint32, the contextID byte) are `Nat`;
none of the verified operations overflow or wrap.  Go panics
(`log.Panicf`, `doassert`) are modelled as an explicit `crash` outcome,
and fallible Go returns `(T, error)` as `Except String T`.
-/

namespace Netdicom

/-- A DICOM tag: (group, element) pair of uint16s. -/
structure Tag where
  group : Nat
  elem : Nat
deriving DecidableEq

/-- A data-element value, at the granularity the DIMSE layer inspects:
a single string, uint16 or uint32. -/
inductive Value where
  | str (s : String)
  | u16 (n : Nat)
  | u32 (n : Nat)
deriving DecidableEq

/-- One decoded DICOM data element. -/
structure DicomElement where
  tag : Tag
  value : Value
deriving DecidableEq

/-- dicom.GetString: the element's value as a string, or an error. -/
def dicomGetString : DicomElement → Except String String
  | ⟨_, .str s⟩ => .ok s
  | _ => .error "GetString: not a string element"

/-- dicom.GetUInt16: the element's value as a uint16, or an error. -/
def dicomGetUInt16 : DicomElement → Except String Nat
  | ⟨_, .u16 n⟩ => .ok n
  | _ => .error "GetUInt16: not a uint16 element"

/-- findElementWithTag from dimse.go: first element with the given tag. -/
def findElementWithTag : List DicomElement → Tag → Except String DicomElement
  | [], _ => .error "Element not found during DIMSE decoding"
  | e :: rest, tag => if e.tag = tag then .ok e else findElementWithTag rest tag

/-- getStringFromElements from dimse.go. -/
def getStringFromElements (elems : List DicomElement) (tag : Tag) : Except String String :=
  match findElementWithTag elems tag with
  | .error e => .error e
  | .ok e => dicomGetString e

/-- getUInt16FromElements from dimse.go. -/
def getUInt16FromElements (elems : List DicomElement) (tag : Tag) : Except String Nat :=
  match findElementWithTag elems tag with
  | .error e => .error e
  | .ok e => dicomGetUInt16 e

/-- TagCommandGroupLength (0000,0000). -/
def TagCommandGroupLength : Tag := ⟨0, 0⟩
/-- TagCommandField (0000,0100). -/
def TagCommandField : Tag := ⟨0, 0x100⟩
/-- TagAffectedSOPClassUID (0000,0002). -/
def TagAffectedSOPClassUID : Tag := ⟨0, 2⟩
/-- TagMessageID (0000,0110). -/
def TagMessageID : Tag := ⟨0, 0x110⟩
/-- TagMessageIDBeingRespondedTo (0000,0120). -/
def TagMessageIDBeingRespondedTo : Tag := ⟨0, 0x120⟩
/-- TagPriority (0000,0700). -/
def TagPriority : Tag := ⟨0, 0x700⟩
/-- TagCommandDataSetType (0000,0800). -/
def TagCommandDataSetType : Tag := ⟨0, 0x800⟩
/-- TagStatus (0000,0900). -/
def TagStatus : Tag := ⟨0, 0x900⟩
/-- TagAffectedSOPInstanceUID (0000,1000). -/
def TagAffectedSOPInstanceUID : Tag := ⟨0, 0x1000⟩
/-- TagMoveOriginatorApplicationEntityTitle (0000,1030). -/
def TagMoveOriginatorApplicationEntityTitle : Tag := ⟨0, 0x1030⟩
/-- TagMoveOriginatorMessageID (0000,1031). -/
def TagMoveOriginatorMessageID : Tag := ⟨0, 0x1031⟩

/-- CommandDataSetTypeNull = 0x101. -/
def CommandDataSetTypeNull : Nat := 0x101

/-- C_STORE_RQ message fields (P3.7 9.3.1.1), from dimse.go. -/
structure C_STORE_RQ where
  AffectedSOPClassUID : String
  MessageID : Nat
  Priority : Nat
  CommandDataSetType : Nat
  AffectedSOPInstanceUID : String
  MoveOriginatorApplicationEntityTitle : String
  MoveOriginatorMessageID : Nat
deriving DecidableEq

/-- C_STORE_RQ.HasData: `doassert(v.CommandDataSetType != CommandDataSetTypeNull)`
then returns that inequality.  `none` models the doassert panic; in the
`some` branch the inequality holds, so the Go return value is `true`. -/
def C_STORE_RQ.HasData (v : C_STORE_RQ) : Option Bool :=
  if v.CommandDataSetType = CommandDataSetTypeNull then none else some true

/-- C_STORE_RQ.Encode from dimse.go.  The two MoveOriginator elements use
the source's literal tags `Tag{0, 1030}` and `Tag{0, 1031}`, whose element
numbers are the DECIMAL literals 1030 and 1031 (0x406 and 0x407), not the
hex 0x1030/0x1031 of the Tag constants the decoder uses. -/
def C_STORE_RQ.Encode (v : C_STORE_RQ) : List DicomElement :=
  [⟨TagCommandField, .u16 1⟩,
   ⟨TagAffectedSOPClassUID, .str v.AffectedSOPClassUID⟩,
   ⟨⟨0, 0x110⟩, .u16 v.MessageID⟩,
   ⟨⟨0, 0x700⟩, .u16 v.Priority⟩,
   ⟨⟨0, 0x800⟩, .u16 v.CommandDataSetType⟩,
   ⟨TagAffectedSOPInstanceUID, .str v.AffectedSOPInstanceUID⟩] ++
  (if v.MoveOriginatorApplicationEntityTitle = "" then []
   else [⟨⟨0, 1030⟩, .str v.MoveOriginatorApplicationEntityTitle⟩]) ++
  (if v.MoveOriginatorMessageID = 0 then []
   else [⟨⟨0, 1031⟩, .u16 v.MoveOriginatorMessageID⟩])

/-- decodeC_STORE_RQ from dimse.go: the first five elements are required,
the two MoveOriginator reads discard their errors (Go `_`), leaving the
zero value on failure. -/
def decodeC_STORE_RQ (elems : List DicomElement) : Except String C_STORE_RQ :=
  match getStringFromElements elems TagAffectedSOPClassUID with
  | .error e => .error e
  | .ok sop =>
  match getUInt16FromElements elems TagMessageID with
  | .error e => .error e
  | .ok mid =>
  match getUInt16FromElements elems TagPriority with
  | .error e => .error e
  | .ok pri =>
  match getUInt16FromElements elems TagCommandDataSetType with
  | .error e => .error e
  | .ok cdst =>
  match getStringFromElements elems TagAffectedSOPInstanceUID with
  | .error e => .error e
  | .ok inst =>
    let moveAET := match getStringFromElements elems TagMoveOriginatorApplicationEntityTitle with
      | .ok s => s
      | .error _ => ""
    let moveID := match getUInt16FromElements elems TagMoveOriginatorMessageID with
      | .ok n => n
      | .error _ => 0
    .ok ⟨sop, mid, pri, cdst, inst, moveAET, moveID⟩

/-- C_STORE_RSP message fields (P3.7 9.3.1.2), from dimse.go. -/
structure C_STORE_RSP where
  AffectedSOPClassUID : String
  MessageIDBeingRespondedTo : Nat
  CommandDataSetType : Nat
  AffectedSOPInstanceUID : String
  Status : Nat
deriving DecidableEq

/-- C_STORE_RSP.HasData: `doassert(v.CommandDataSetType == CommandDataSetTypeNull)`
then returns the inequality.  `none` models the doassert panic; in the
`some` branch equality holds, so the Go return value is `false`. -/
def C_STORE_RSP.HasData (v : C_STORE_RSP) : Option Bool :=
  if v.CommandDataSetType = CommandDataSetTypeNull then some false else none

/-- C_STORE_RSP.Encode from dimse.go: `doassert(v.CommandDataSetType == 0x101)`
(modelled as `none`, the panic case), then the six elements in source order. -/
def C_STORE_RSP.Encode (v : C_STORE_RSP) : Option (List DicomElement) :=
  if v.CommandDataSetType = 0x101 then
    some [⟨TagCommandField, .u16 0x8001⟩,
          ⟨TagAffectedSOPClassUID, .str v.AffectedSOPClassUID⟩,
          ⟨TagMessageIDBeingRespondedTo, .u16 v.MessageIDBeingRespondedTo⟩,
          ⟨TagCommandDataSetType, .u16 v.CommandDataSetType⟩,
          ⟨TagAffectedSOPInstanceUID, .str v.AffectedSOPInstanceUID⟩,
          ⟨TagStatus, .u16 v.Status⟩]
  else none

/-- decodeC_STORE_RSP from dimse.go: reads AffectedSOPClassUID,
MessageIDBeingRespondedTo, Status and CommandDataSetType, in that order.
It never reads AffectedSOPInstanceUID; that field keeps its zero value. -/
def decodeC_STORE_RSP (elems : List DicomElement) : Except String C_STORE_RSP :=
  match getStringFromElements elems TagAffectedSOPClassUID with
  | .error e => .error e
  | .ok sop =>
  match getUInt16FromElements elems TagMessageIDBeingRespondedTo with
  | .error e => .error e
  | .ok mid =>
  match getUInt16FromElements elems TagStatus with
  | .error e => .error e
  | .ok st =>
  match getUInt16FromElements elems TagCommandDataSetType with
  | .error e => .error e
  | .ok cdst =>
    .ok ⟨sop, mid, cdst, "", st⟩

/-- The DIMSEMessage interface: in this source, exactly the two C-STORE
message types. -/
inductive DIMSEMessage where
  | storeRq (v : C_STORE_RQ)
  | storeRsp (v : C_STORE_RSP)
deriving DecidableEq

/-- Interface dispatch of Encode.  `none` models a doassert panic inside
the concrete Encode. -/
def DIMSEMessage.Encode : DIMSEMessage → Option (List DicomElement)
  | .storeRq v => some v.Encode
  | .storeRsp v => v.Encode

/-- Interface dispatch of HasData.  `none` models a doassert panic. -/
def DIMSEMessage.HasData : DIMSEMessage → Option Bool
  | .storeRq v => v.HasData
  | .storeRsp v => v.HasData

/-- Outcome of DecodeDIMSEMessage: success, an error return, or a
`log.Panicf` process crash. -/
inductive DecodeResult where
  | ok (msg : DIMSEMessage)
  | err (e : String)
  | crash (m : String)
deriving DecidableEq

/-- DecodeDIMSEMessage from dimse.go.  The input byte stream is modelled
as the already-parsed element list (the element codec is the external
dicom library).  Dispatch on CommandField: 1 and 0x8001 decode; any other
value reaches `log.Panicf("Unknown DIMSE command 0x%x", ...)`, modelled
as `crash`. -/
def DecodeDIMSEMessage (elems : List DicomElement) : DecodeResult :=
  match getUInt16FromElements elems TagCommandField with
  | .error e => .err e
  | .ok commandField =>
    if commandField = 1 then
      match decodeC_STORE_RQ elems with
      | .ok v => .ok (.storeRq v)
      | .error e => .err e
    else if commandField = 0x8001 then
      match decodeC_STORE_RSP elems with
      | .ok v => .ok (.storeRsp v)
      | .error e => .err e
    else .crash "Unknown DIMSE command"

/-- encodeDIMSEMessage from dimse.go: the encoded message prefixed with a
CommandGroupLength element.  At element granularity the byte length of
the encoded remainder is abstracted to its element count; the decoder
never reads this element, so no claim depends on the value.  `none`
models a doassert panic inside Encode. -/
def encodeDIMSEMessage (v : DIMSEMessage) : Option (List DicomElement) :=
  match v.Encode with
  | none => none
  | some bs => some (⟨TagCommandGroupLength, .u32 bs.length⟩ :: bs)

/-- Modelled from the spec: one entry of the context manager's mapping
contextID to abstractSyntaxUID (the transferSyntaxUID half is unused by
addPDataTF).  The contextIDMap type lives outside src/. -/
structure contextIDMapEntry where
  contextID : Nat
  abstractSyntaxUID : String
deriving DecidableEq

/-- Modelled from the spec: contextIDToAbstractSyntaxName looks the
contextID up in the context manager's map; the Bool flags a lookup error
(addPDataTF ignores it and uses the returned name, empty on failure). -/
def contextIDToAbstractSyntaxName (m : List contextIDMapEntry) (id : Nat) : String × Bool :=
  match m.find? (fun e => e.contextID = id) with
  | some e => (e.abstractSyntaxUID, false)
  | none => ("", true)

/-- Modelled from the spec: one Presentation Data Value item of a
P-DATA-TF PDU: contextID, command-vs-data bit, last-fragment bit, and
value bytes (at element granularity, see the header comment). -/
structure PDVItem where
  contextID : Nat
  command : Bool
  last : Bool
  value : List DicomElement
deriving DecidableEq

/-- Modelled from the spec: a P-DATA-TF PDU is a list of PDV items. -/
structure P_DATA_TF where
  items : List PDVItem
deriving DecidableEq

/-- dimseCommandAssembler from dimse.go, fields in source order. -/
structure dimseCommandAssembler where
  contextID : Nat
  commandBytes : List DicomElement
  command : Option DIMSEMessage
  dataBytes : List DicomElement
  readAllCommand : Bool
  readAllData : Bool
deriving DecidableEq

/-- The Go zero value `dimseCommandAssembler\x7b\x7d` used to reset. -/
def emptyAssembler : dimseCommandAssembler := ⟨0, [], none, [], false, false⟩

/-- The contextID-adoption step of addPDataTF's loop: `if a.contextID == 0`
adopt the item's contextID, else leave the assembler unchanged. -/
def adoptContext (a : dimseCommandAssembler) (id : Nat) : dimseCommandAssembler :=
  if a.contextID = 0 then { a with contextID := id } else a

/-- The `for _, item := range pdu.Items` loop of addPDataTF.  `.error`
models the two panics: `log.Panicf("Mixed context: ...")` on a contextID
mismatch, and `doassert(!a.readAllCommand)` / `doassert(!a.readAllData)`
on a repeated Last fragment. -/
def addItems : dimseCommandAssembler → List PDVItem → Except String dimseCommandAssembler
  | a, [] => .ok a
  | a, item :: rest =>
    if a.contextID ≠ 0 ∧ a.contextID ≠ item.contextID then
      .error "Mixed context"
    else
      let a0 := adoptContext a item.contextID
      if item.command then
        if item.last && a0.readAllCommand then .error "doassert failed: readAllCommand"
        else addItems { a0 with commandBytes := a0.commandBytes ++ item.value,
                                readAllCommand := a0.readAllCommand || item.last } rest
      else
        if item.last && a0.readAllData then .error "doassert failed: readAllData"
        else addItems { a0 with dataBytes := a0.dataBytes ++ item.value,
                                readAllData := a0.readAllData || item.last } rest

/-- Outcome of one addPDataTF call: the Go quadruple
`(string, DIMSEMessage, []byte, error)`.  `incomplete` is the all-nil
return, `emit` a completed message, `err` a non-nil error return, and
`crash` a panic (log.Panicf or doassert). -/
inductive AddResult where
  | incomplete
  | emit (syntaxName : String) (command : DIMSEMessage) (dataBytes : List DicomElement)
  | err (e : String)
  | crash (m : String)
deriving DecidableEq

/-- The tail of addPDataTF after the command is available: the HasData
check (whose doassert may panic), the wait-for-data early return, the
abstract-syntax lookup whose error the source ignores, and the
`*a = dimseCommandAssembler\x7b\x7d` reset on emit. -/
def afterDecode (cmap : List contextIDMapEntry) (a : dimseCommandAssembler)
    (c : DIMSEMessage) : dimseCommandAssembler × AddResult :=
  match c.HasData with
  | none => (a, .crash "doassert failed: CommandDataSetType")
  | some hd =>
    if hd ∧ a.readAllData = false then (a, .incomplete)
    else
      let syntaxName := (contextIDToAbstractSyntaxName cmap a.contextID).1
      (emptyAssembler, .emit syntaxName c a.dataBytes)

/-- The part of addPDataTF after the PDV loop: early return while the
command is incomplete, the cached decode of the command bytes, then
`afterDecode`. -/
def finishAssembly (cmap : List contextIDMapEntry) (a : dimseCommandAssembler) :
    dimseCommandAssembler × AddResult :=
  if a.readAllCommand = false then (a, .incomplete)
  else
    match a.command with
    | some c => afterDecode cmap a c
    | none =>
      match DecodeDIMSEMessage a.commandBytes with
      | .err e => (a, .err e)
      | .crash m => (a, .crash m)
      | .ok c => afterDecode cmap { a with command := some c } c

/-- addPDataTF from dimse.go, as a state transformer: the Go function
mutates `*a` and returns the quadruple; here it returns the new assembler
state paired with the outcome.  On a panic the post-state is
unobservable; the input state is returned. -/
def addPDataTF (a : dimseCommandAssembler) (pdu : P_DATA_TF)
    (cmap : List contextIDMapEntry) : dimseCommandAssembler × AddResult :=
  match addItems a pdu.items with
  | .error m => (a, .crash m)
  | .ok a1 => finishAssembly cmap a1

/-- Runs a sequence of addPDataTF calls in which every call returns the
all-nil quadruple (no emit, no error, no panic), threading the assembler
state; `none` if some call returns anything else. -/
def runNone (cmap : List contextIDMapEntry) :
    dimseCommandAssembler → List P_DATA_TF → Option dimseCommandAssembler
  | a, [] => some a
  | a, pdu :: rest =>
    match addPDataTF a pdu cmap with
    | (a1, .incomplete) => runNone cmap a1 rest
    | _ => none

/-- Concatenation, in arrival order, of the value bytes of the command
PDVs of one P-DATA-TF item list. -/
def pdvCommandValues : List PDVItem → List DicomElement
  | [] => []
  | i :: rest => (if i.command then i.value else []) ++ pdvCommandValues rest

/-- Concatenation, in arrival order, of the value bytes of the data PDVs
of one P-DATA-TF item list. -/
def pdvDataValues : List PDVItem → List DicomElement
  | [] => []
  | i :: rest => (if i.command then [] else i.value) ++ pdvDataValues rest

/-- Concatenation of all command-PDV value bytes across a PDU sequence. -/
def pduCommandValues : List P_DATA_TF → List DicomElement
  | [] => []
  | p :: ps => pdvCommandValues p.items ++ pduCommandValues ps

/-- Concatenation of all data-PDV value bytes across a PDU sequence. -/
def pduDataValues : List P_DATA_TF → List DicomElement
  | [] => []
  | p :: ps => pdvDataValues p.items ++ pduDataValues ps

/-- Whether a PDU carries any command PDV. -/
def hasCmdItem (p : P_DATA_TF) : Bool := p.items.any (fun i => i.command)

/-- Whether a PDU carries a command PDV with Last set. -/
def hasLastCmdItem (p : P_DATA_TF) : Bool := p.items.any (fun i => i.command && i.last)

/-- Well-fragmented PDU sequences: once some PDU has carried the last
command fragment, no later PDU carries a command PDV.  (Trailing command
PDVs inside the same PDU as the Last fragment are permitted: they are
appended before the command is decoded.) -/
def noCmdAfter : Bool → List P_DATA_TF → Bool
  | _, [] => true
  | seen, p :: ps => (!seen || !hasCmdItem p) && noCmdAfter (seen || hasLastCmdItem p) ps

/-- dicom.DataSet, abstract: a list of elements (only passed through by
the sample server's C-MOVE handler, never inspected). -/
structure DicomDataSet where
  elements : List DicomElement
deriving DecidableEq

/-- filterMatch from sampleserver.go: a matching DICOM path and the
elements that matched the filter. -/
structure filterMatch where
  path : String
  elems : List DicomElement
deriving DecidableEq

/-- CMoveResult from the netdicom package, as used by sampleserver.go. -/
structure CMoveResult where
  Remaining : Nat
  Path : String
  DataSet : Option DicomDataSet
  Err : Option String
deriving DecidableEq

/-- The `for i, match := range matches` loop body of onCMoveOrCGet in
sampleserver.go: the i-th response carries Remaining = n - i - 1 and the
match's path; ReadDataSetFromFile either fills DataSet or Err.  `readDS`
stands for dicom.ReadDataSetFromFile on the match's path. -/
def cmoveLoop (readDS : String → Except String DicomDataSet) (n : Nat) :
    Nat → List filterMatch → List CMoveResult
  | _, [] => []
  | i, m :: rest =>
    (match readDS m.path with
     | .error e => { Remaining := n - i - 1, Path := m.path, DataSet := none, Err := some e }
     | .ok ds => { Remaining := n - i - 1, Path := m.path, DataSet := some ds, Err := none }) ::
    cmoveLoop readDS n (i + 1) rest

/-- onCMoveOrCGet from sampleserver.go, in the case where
findMatchingFiles succeeded: the sequence of responses written to the
result channel, in order.  (The channel write/close mechanics are
concurrency plumbing; the yielded sequence is this list.) -/
def onCMoveOrCGet (readDS : String → Except String DicomDataSet)
    (ms : List filterMatch) : List CMoveResult :=
  cmoveLoop readDS ms.length 0 ms

/-- Amended round-trip domain (claim C1): C-STORE-RQ with no
MoveOriginator fields, or C-STORE-RSP with the mandatory null
CommandDataSetType and an empty AffectedSOPInstanceUID. -/
def roundTripSafe : DIMSEMessage → Prop
  | .storeRq v => v.MoveOriginatorApplicationEntityTitle = "" ∧ v.MoveOriginatorMessageID = 0
  | .storeRsp r => r.CommandDataSetType = 0x101 ∧ r.AffectedSOPInstanceUID = ""

/-- Concrete example: a complete C-STORE-RSP command element stream with
null CommandDataSetType (and no AffectedSOPInstanceUID element; the
decoder never reads one). -/
def rspNullElems : List DicomElement :=
  [⟨TagCommandField, .u16 0x8001⟩, ⟨TagAffectedSOPClassUID, .str "1.2"⟩,
   ⟨TagMessageIDBeingRespondedTo, .u16 7⟩, ⟨TagStatus, .u16 0⟩,
   ⟨TagCommandDataSetType, .u16 0x101⟩]

/-- The message `rspNullElems` decodes to. -/
def rspNullMsg : C_STORE_RSP := ⟨"1.2", 7, 0x101, "", 0⟩

/-- Concrete example: one P-DATA-TF carrying `rspNullElems` as a single
last command PDV on context 1. -/
def pduRspNull : P_DATA_TF := ⟨[⟨1, true, true, rspNullElems⟩]⟩

/-- Concrete example: a complete C-STORE-RQ command element stream with a
non-null CommandDataSetType (1). -/
def rqDataElems : List DicomElement :=
  [⟨TagCommandField, .u16 1⟩, ⟨TagAffectedSOPClassUID, .str "1.2"⟩,
   ⟨TagMessageID, .u16 9⟩, ⟨TagPriority, .u16 0⟩,
   ⟨TagCommandDataSetType, .u16 1⟩, ⟨TagAffectedSOPInstanceUID, .str "1.3"⟩]

/-- The message `rqDataElems` decodes to. -/
def rqDataMsg : C_STORE_RQ := ⟨"1.2", 9, 0, 1, "1.3", "", 0⟩

/-- Concrete example: a P-DATA-TF carrying `rqDataElems` as a single last
command PDV on context 1. -/
def pduRqData : P_DATA_TF := ⟨[⟨1, true, true, rqDataElems⟩]⟩

/-- Concrete example: a second P-DATA-TF with a late (non-last) command
PDV carrying a stray MoveOriginatorMessageID element, followed by an
empty last data PDV. -/
def pduLateCmd : P_DATA_TF :=
  ⟨[⟨1, true, false, [⟨TagMoveOriginatorMessageID, .u16 5⟩]⟩, ⟨1, false, true, []⟩]⟩

/-- Concrete example: a complete C-STORE-RQ command element stream whose
CommandDataSetType is null (0x101). -/
def rqNullElems : List DicomElement :=
  [⟨TagCommandField, .u16 1⟩, ⟨TagAffectedSOPClassUID, .str "1.2"⟩,
   ⟨TagMessageID, .u16 1⟩, ⟨TagPriority, .u16 0⟩,
   ⟨TagCommandDataSetType, .u16 0x101⟩, ⟨TagAffectedSOPInstanceUID, .str "1.3"⟩]

/-- Concrete example: a P-DATA-TF whose single last command PDV carries
an empty value, so the accumulated command bytes fail to decode. -/
def pduBadCmd : P_DATA_TF := ⟨[⟨1, true, true, []⟩]⟩

/-!  Theorems.  -/

/-- C2: for every group-0 element stream whose CommandField element has a
value that is neither 0x0001 nor 0x8001, `DecodeDIMSEMessage` does NOT
fail with an error return: it reaches `log.Panicf` and terminates the
process (the `crash` outcome).  The claim (error return, association
abort, process survives) is the spec's stated intent; the code panics. -/
theorem C2_unknown_command_crashes (elems : List DicomElement) (cf : Nat)
    (hcf : getUInt16FromElements elems TagCommandField = .ok cf)
    (h1 : cf ≠ 1) (h2 : cf ≠ 0x8001) :
    DecodeDIMSEMessage elems = .crash "Unknown DIMSE command" := by
  simp only [DecodeDIMSEMessage, hcf, if_neg h1, if_neg h2]

/-- Witness for C2: a stream whose CommandField is 2 crashes. -/
theorem C2_unknown_command_witness :
    DecodeDIMSEMessage [⟨TagCommandField, .u16 2⟩] = .crash "Unknown DIMSE command" :=
  C2_unknown_command_crashes [⟨TagCommandField, .u16 2⟩] 2 rfl
    (by decide) (by decide)

/-- C3: when the assembler has already adopted a non-zero contextID and a
PDV of the incoming P-DATA-TF carries a different contextID, `addPDataTF`
does NOT return a protocol error: it reaches
`log.Panicf("Mixed context: ...")` and crashes the process.  The claim
(error return, A-ABORT) is the spec's stated intent; the code panics
(its own comment says `TODO(saito) do not panic here`). -/
theorem C3_mixed_context_crashes (a : dimseCommandAssembler) (item : PDVItem)
    (rest : List PDVItem) (cmap : List contextIDMapEntry)
    (h0 : a.contextID ≠ 0) (hne : a.contextID ≠ item.contextID) :
    addPDataTF a ⟨item :: rest⟩ cmap = (a, .crash "Mixed context") := by
  simp only [addPDataTF, addItems, if_pos (And.intro h0 hne)]

/-- Witness for C3: assembler on context 1, PDV on context 2. -/
theorem C3_mixed_context_witness :
    addPDataTF ⟨1, [], none, [], false, false⟩ ⟨[⟨2, true, false, []⟩]⟩ [] =
      (⟨1, [], none, [], false, false⟩, .crash "Mixed context") :=
  C3_mixed_context_crashes ⟨1, [], none, [], false, false⟩ ⟨2, true, false, []⟩ [] []
    (by decide) (by decide)

/-- C5: `C_STORE_RQ.Encode` writes the MoveOriginator values under the
tags (0000,0406) and (0000,0407) — the Go literals `Tag\x7b0, 1030\x7d`
and `Tag\x7b0, 1031\x7d` are decimal — while the decoder reads the
canonical (0000,1030) = (0,4144) and (0000,1031) = (0,4145); the round
trip therefore silently drops both values.  The claim (canonical tags,
same as the decoder) is the spec's stated intent; the code is a slip. -/
theorem C5_move_originator_wrong_tags :
    (C_STORE_RQ.Encode ⟨"1.2", 1, 0, 1, "1.3", "A", 5⟩).map (fun e => e.tag) =
      [⟨0, 0x100⟩, ⟨0, 2⟩, ⟨0, 0x110⟩, ⟨0, 0x700⟩, ⟨0, 0x800⟩, ⟨0, 0x1000⟩,
       ⟨0, 1030⟩, ⟨0, 1031⟩] ∧
    TagMoveOriginatorApplicationEntityTitle = ⟨0, 4144⟩ ∧
    TagMoveOriginatorMessageID = ⟨0, 4145⟩ ∧
    DecodeDIMSEMessage ((encodeDIMSEMessage (.storeRq ⟨"1.2", 1, 0, 1, "1.3", "A", 5⟩)).getD []) =
      .ok (.storeRq ⟨"1.2", 1, 0, 1, "1.3", "", 0⟩) := by
  refine ⟨rfl, rfl, rfl, rfl⟩

/-- C6 counterexample: a group-0 stream with CommandField = 0x8001 and no
AffectedSOPInstanceUID element decodes SUCCESSFULLY (the claim says the
decode must fail with an error). -/
theorem C6_missing_instance_uid_counterexample :
    DecodeDIMSEMessage rspNullElems = .ok (.storeRsp rspNullMsg) := rfl

/-- C6 amended: `decodeC_STORE_RSP` requires only AffectedSOPClassUID,
MessageIDBeingRespondedTo, Status and CommandDataSetType; it never reads
AffectedSOPInstanceUID, so a CommandField = 0x8001 stream lacking that
element still decodes, with the field left empty. -/
theorem C6_rsp_decode_ignores_instance_uid (elems : List DicomElement)
    (sop : String) (mid st cdst : Nat)
    (hcf : getUInt16FromElements elems TagCommandField = .ok 0x8001)
    (hsop : getStringFromElements elems TagAffectedSOPClassUID = .ok sop)
    (hmid : getUInt16FromElements elems TagMessageIDBeingRespondedTo = .ok mid)
    (hst : getUInt16FromElements elems TagStatus = .ok st)
    (hcdst : getUInt16FromElements elems TagCommandDataSetType = .ok cdst) :
    DecodeDIMSEMessage elems = .ok (.storeRsp ⟨sop, mid, cdst, "", st⟩) := by
  simp only [DecodeDIMSEMessage, hcf, decodeC_STORE_RSP, hsop, hmid, hst, hcdst]
  norm_num

/-- Witness for C6: the concrete RSP stream without the instance UID. -/
theorem C6_rsp_decode_witness :
    DecodeDIMSEMessage rspNullElems = .ok (.storeRsp ⟨"1.2", 7, 0x101, "", 0⟩) :=
  C6_rsp_decode_ignores_instance_uid rspNullElems "1.2" 7 0 0x101 rfl rfl rfl rfl rfl

/-- C1 counterexample: a valid C-STORE-RSP (CommandDataSetType = 0x0101)
with a non-empty AffectedSOPInstanceUID does not round-trip: the decoder
never reads that element, so decode(encode(x)) differs from x. -/
theorem C1_rsp_roundtrip_counterexample :
    encodeDIMSEMessage (.storeRsp ⟨"1.2", 7, 0x101, "1.9", 0⟩) ≠ none ∧
    DecodeDIMSEMessage ((encodeDIMSEMessage (.storeRsp ⟨"1.2", 7, 0x101, "1.9", 0⟩)).getD []) =
      .ok (.storeRsp ⟨"1.2", 7, 0x101, "", 0⟩) ∧
    DIMSEMessage.storeRsp ⟨"1.2", 7, 0x101, "", 0⟩ ≠ .storeRsp ⟨"1.2", 7, 0x101, "1.9", 0⟩ := by
  refine ⟨by decide, rfl, by decide⟩

/-- C1 amended: decode(encode(x)) = x holds for a C-STORE-RQ whose two
MoveOriginator fields are absent (empty title, zero message ID; the
encoder writes them under wrong tags otherwise) and for a C-STORE-RSP
whose AffectedSOPInstanceUID is empty (the decoder never reads it). -/
theorem C1_roundtrip_amended (x : DIMSEMessage) (h : roundTripSafe x) :
    ∃ es, encodeDIMSEMessage x = some es ∧ DecodeDIMSEMessage es = .ok x := by
  cases x with
  | storeRq v =>
    obtain ⟨sop, mid, pri, cdst, inst, aet, mvid⟩ := v
    obtain ⟨h1, h2⟩ := h
    subst h1; subst h2
    exact ⟨_, rfl, rfl⟩
  | storeRsp r =>
    obtain ⟨sop, mid, cdst, inst, st⟩ := r
    obtain ⟨h1, h2⟩ := h
    subst h1; subst h2
    exact ⟨_, rfl, rfl⟩

/-- Witness for C1: a concrete C-STORE-RQ with empty MoveOriginator
fields round-trips. -/
theorem C1_roundtrip_witness :
    ∃ es, encodeDIMSEMessage (.storeRq rqDataMsg) = some es ∧
      DecodeDIMSEMessage es = .ok (.storeRq rqDataMsg) :=
  C1_roundtrip_amended (.storeRq rqDataMsg) ⟨rfl, rfl⟩

/-- Helper: an `emit` outcome of `afterDecode` always carries the reset
(empty) assembler, the decoded command and the accumulated data bytes. -/
theorem afterDecode_emit_state (cmap : List contextIDMapEntry)
    (a : dimseCommandAssembler) (c : DIMSEMessage) (s2 : dimseCommandAssembler)
    (syn : String) (cc : DIMSEMessage) (d : List DicomElement)
    (h : afterDecode cmap a c = (s2, .emit syn cc d)) :
    s2 = emptyAssembler ∧ cc = c ∧ d = a.dataBytes := by
  unfold afterDecode at h
  split at h
  · simp at h
  · split at h
    · simp at h
    · simp only [Prod.mk.injEq, AddResult.emit.injEq] at h
      exact ⟨h.1.symm, h.2.2.1.symm, h.2.2.2.symm⟩

/-- Helper: `afterDecode` never returns an error outcome. -/
theorem afterDecode_no_err (cmap : List contextIDMapEntry)
    (a : dimseCommandAssembler) (c : DIMSEMessage) (s2 : dimseCommandAssembler)
    (e : String) (h : afterDecode cmap a c = (s2, .err e)) : False := by
  unfold afterDecode at h
  split at h
  · simp at h
  · split at h
    · simp at h
    · simp at h

/-- C4 counterexample: command fragments complete, the accumulated bytes
decode to a C-STORE-RQ with CommandDataSetType = 0x0101 — and addPDataTF
does not emit: `C_STORE_RQ.HasData` hits `doassert(v.CommandDataSetType
!= CommandDataSetTypeNull)` and panics. -/
theorem C4_rq_null_counterexample :
    (addPDataTF emptyAssembler ⟨[⟨1, true, true, rqNullElems⟩]⟩ []).2 =
      .crash "doassert failed: CommandDataSetType" ∧
    DecodeDIMSEMessage rqNullElems = .ok (.storeRq ⟨"1.2", 1, 0, 0x101, "1.3", "", 0⟩) := by
  exact ⟨rfl, rfl⟩

/-- C4 amended: when the accumulated command bytes decode to a C-STORE-
RSP with CommandDataSetType = 0x0101 (the only command type whose
HasData survives the null value), addPDataTF treats the data side as
complete unconditionally — readAllData still false, no data PDV seen —
and emits the assembled message with empty dataBytes.  For a C-STORE-RQ
with the null value the code instead panics in HasData. -/
theorem C4_null_rsp_emits (a : dimseCommandAssembler) (pdu : P_DATA_TF)
    (cmap : List contextIDMapEntry) (a1 : dimseCommandAssembler) (r : C_STORE_RSP)
    (hadd : addItems a pdu.items = .ok a1)
    (hrac : a1.readAllCommand = true)
    (hcmd : a1.command = none)
    (hdec : DecodeDIMSEMessage a1.commandBytes = .ok (.storeRsp r))
    (hnull : r.CommandDataSetType = 0x101)
    (hrad : a1.readAllData = false)
    (hdb : a1.dataBytes = []) :
    addPDataTF a pdu cmap =
      (emptyAssembler,
       .emit (contextIDToAbstractSyntaxName cmap a1.contextID).1 (.storeRsp r) []) := by
  simp [addPDataTF, hadd, finishAssembly, hrac, hcmd, hdec, afterDecode,
    DIMSEMessage.HasData, C_STORE_RSP.HasData, CommandDataSetTypeNull, hnull, hrad, hdb]

/-- Witness for C4: the concrete null C-STORE-RSP stream emits with empty
dataBytes although no data PDV was ever seen. -/
theorem C4_null_rsp_witness :
    addPDataTF emptyAssembler pduRspNull [] =
      (emptyAssembler,
       .emit (contextIDToAbstractSyntaxName [] 1).1 (.storeRsp rspNullMsg) []) :=
  C4_null_rsp_emits emptyAssembler pduRspNull []
    ⟨1, rspNullElems, none, [], true, false⟩ rspNullMsg rfl rfl rfl rfl rfl rfl rfl

/-- C8: whenever addPDataTF emits an assembled command, the returned
assembler state is the Go zero value: contextID 0, empty commandBytes and
dataBytes, no decoded command, both completion flags false — the next PDV
on the association begins a new message. -/
theorem C8_emit_resets_assembler (a : dimseCommandAssembler) (pdu : P_DATA_TF)
    (cmap : List contextIDMapEntry) (s2 : dimseCommandAssembler)
    (syn : String) (c : DIMSEMessage) (d : List DicomElement)
    (h : addPDataTF a pdu cmap = (s2, .emit syn c d)) :
    s2.contextID = 0 ∧ s2.commandBytes = [] ∧ s2.command = none ∧
    s2.dataBytes = [] ∧ s2.readAllCommand = false ∧ s2.readAllData = false := by
  have hs : s2 = emptyAssembler := by
    unfold addPDataTF at h
    split at h
    · simp at h
    · rename_i a1 heq
      unfold finishAssembly at h
      split at h
      · simp at h
      · split at h
        · exact (afterDecode_emit_state _ _ _ _ _ _ _ h).1
        · split at h
          · simp at h
          · simp at h
          · exact (afterDecode_emit_state _ _ _ _ _ _ _ h).1
  subst hs
  exact ⟨rfl, rfl, rfl, rfl, rfl, rfl⟩

/-- Witness for C8: the concrete null-RSP emit leaves the empty state. -/
theorem C8_emit_resets_witness :
    emptyAssembler.contextID = 0 ∧ emptyAssembler.commandBytes = [] ∧
    emptyAssembler.command = none ∧ emptyAssembler.dataBytes = [] ∧
    emptyAssembler.readAllCommand = false ∧ emptyAssembler.readAllData = false :=
  C8_emit_resets_assembler emptyAssembler pduRspNull [] emptyAssembler
    (contextIDToAbstractSyntaxName [] 1).1 (.storeRsp rspNullMsg) [] rfl

/-- C10: when addPDataTF returns a decode error, the assembler is not
reset: the post-state is exactly the accumulated state of the PDV loop
(commandBytes, dataBytes, contextID and completion flags preserved, with
readAllCommand = true and the command still undecoded), the error is the
decode error of the accumulated command bytes, and a subsequent call with
an empty PDU retries the decode on the same bytes and fails the same
way. -/
theorem C10_decode_error_preserves_state (a : dimseCommandAssembler)
    (pdu : P_DATA_TF) (cmap : List contextIDMapEntry)
    (s2 : dimseCommandAssembler) (e : String)
    (h : addPDataTF a pdu cmap = (s2, .err e)) :
    addItems a pdu.items = .ok s2 ∧ s2.command = none ∧ s2.readAllCommand = true ∧
    DecodeDIMSEMessage s2.commandBytes = .err e ∧
    addPDataTF s2 ⟨[]⟩ cmap = (s2, .err e) := by
  unfold addPDataTF at h
  split at h
  · simp at h
  · rename_i a1 heq
    unfold finishAssembly at h
    split at h
    · simp at h
    · rename_i hrac
      split at h
      · exact absurd h (fun hh => afterDecode_no_err _ _ _ _ _ hh)
      · rename_i hcmd
        split at h
        · rename_i e0 hdec
          simp only [Prod.mk.injEq, AddResult.err.injEq] at h
          obtain ⟨rfl, rfl⟩ := h
          have hractrue : a1.readAllCommand = true := by
            cases hx : a1.readAllCommand
            · exact absurd hx hrac
            · rfl
          refine ⟨heq, hcmd, hractrue, hdec, ?_⟩
          simp [addPDataTF, addItems, finishAssembly, hractrue, hcmd, hdec]
        · simp at h
        · exact absurd h (fun hh => afterDecode_no_err _ _ _ _ _ hh)

/-- Witness for C10: an empty command value completes the command side
but fails to decode; the state persists and the empty-PDU retry fails
identically. -/
theorem C10_decode_error_witness :
    addItems emptyAssembler pduBadCmd.items = .ok ⟨1, [], none, [], true, false⟩ ∧
    (dimseCommandAssembler.mk 1 [] none [] true false).command = none ∧
    (dimseCommandAssembler.mk 1 [] none [] true false).readAllCommand = true ∧
    DecodeDIMSEMessage (dimseCommandAssembler.mk 1 [] none [] true false).commandBytes =
      .err "Element not found during DIMSE decoding" ∧
    addPDataTF ⟨1, [], none, [], true, false⟩ ⟨[]⟩ [] =
      (⟨1, [], none, [], true, false⟩, .err "Element not found during DIMSE decoding") :=
  C10_decode_error_preserves_state emptyAssembler pduBadCmd []
    ⟨1, [], none, [], true, false⟩ "Element not found during DIMSE decoding" rfl

/-- Helper: the C-MOVE loop yields one response per match. -/
theorem cmoveLoop_length (readDS : String → Except String DicomDataSet) :
    ∀ (ms : List filterMatch) (n i : Nat), (cmoveLoop readDS n i ms).length = ms.length := by
  intro ms
  induction ms with
  | nil => intro n i; rfl
  | cons m rest ih =>
    intro n i
    simp only [cmoveLoop, List.length_cons, ih]

/-- Helper: the Remaining fields of the C-MOVE loop, starting at index i,
are n - i - 1, n - i - 2, ... -/
theorem cmoveLoop_remaining (readDS : String → Except String DicomDataSet) :
    ∀ (ms : List filterMatch) (n i : Nat),
      (cmoveLoop readDS n i ms).map (fun r => r.Remaining) =
        (List.range ms.length).map (fun j => n - (i + j) - 1) := by
  intro ms
  induction ms with
  | nil => intro n i; rfl
  | cons m rest ih =>
    intro n i
    have hhead :
        (match readDS m.path with
         | .error e => CMoveResult.mk (n - i - 1) m.path none (some e)
         | .ok ds => CMoveResult.mk (n - i - 1) m.path (some ds) none).Remaining =
          n - i - 1 := by
      cases readDS m.path <;> rfl
    have harg : ∀ j : Nat, n - (i + Nat.succ j) - 1 = n - (i + 1 + j) - 1 := by
      intro j; omega
    simp only [cmoveLoop, List.map_cons, List.length_cons, List.range_succ_eq_map,
      List.map_map, Function.comp_def, hhead, Nat.add_zero, harg, ih]

/-- C9: for a C-MOVE or C-GET whose filter matched the list `ms` of
datasets (n = ms.length), the sample server's result sequence has exactly
n responses and the i-th response carries Remaining = n - i - 1: the
Remaining values are n-1, n-2, ..., 0, monotonically decreasing to 0 on
the terminal response. -/
theorem C9_remaining_decrements (readDS : String → Except String DicomDataSet)
    (ms : List filterMatch) :
    (onCMoveOrCGet readDS ms).length = ms.length ∧
    (onCMoveOrCGet readDS ms).map (fun r => r.Remaining) =
      (List.range ms.length).map (fun i => ms.length - i - 1) := by
  refine ⟨cmoveLoop_length readDS ms ms.length 0, ?_⟩
  have h := cmoveLoop_remaining readDS ms ms.length 0
  simpa only [onCMoveOrCGet, Nat.zero_add] using h

@[simp] theorem adoptContext_commandBytes (a : dimseCommandAssembler) (id : Nat) :
    (adoptContext a id).commandBytes = a.commandBytes := by
  unfold adoptContext; split <;> rfl

@[simp] theorem adoptContext_dataBytes (a : dimseCommandAssembler) (id : Nat) :
    (adoptContext a id).dataBytes = a.dataBytes := by
  unfold adoptContext; split <;> rfl

@[simp] theorem adoptContext_command (a : dimseCommandAssembler) (id : Nat) :
    (adoptContext a id).command = a.command := by
  unfold adoptContext; split <;> rfl

@[simp] theorem adoptContext_readAllCommand (a : dimseCommandAssembler) (id : Nat) :
    (adoptContext a id).readAllCommand = a.readAllCommand := by
  unfold adoptContext; split <;> rfl

@[simp] theorem adoptContext_readAllData (a : dimseCommandAssembler) (id : Nat) :
    (adoptContext a id).readAllData = a.readAllData := by
  unfold adoptContext; split <;> rfl

/-- Helper: a successful PDV loop appends command values to commandBytes
and data values to dataBytes in arrival order, leaves the cached command
untouched, and completion flags become true exactly when a Last fragment
of that kind occurred. -/
theorem addItems_ok_spec : ∀ (items : List PDVItem) (a a1 : dimseCommandAssembler),
    addItems a items = .ok a1 →
    a1.commandBytes = a.commandBytes ++ pdvCommandValues items ∧
    a1.dataBytes = a.dataBytes ++ pdvDataValues items ∧
    a1.command = a.command ∧
    a1.readAllCommand = (a.readAllCommand || items.any (fun i => i.command && i.last)) ∧
    a1.readAllData = (a.readAllData || items.any (fun i => !i.command && i.last)) := by
  intro items
  induction items with
  | nil =>
    intro a a1 h
    simp only [addItems] at h
    injection h with h
    subst h
    simp [pdvCommandValues, pdvDataValues]
  | cons i rest ih =>
    intro a a1 h
    simp only [addItems] at h
    split at h
    · exact Except.noConfusion h
    · split at h
      · rename_i hctx hc
        split at h
        · exact Except.noConfusion h
        · obtain ⟨e1, e2, e3, e4, e5⟩ := ih _ _ h
          simp only [adoptContext_commandBytes, adoptContext_dataBytes, adoptContext_command,
            adoptContext_readAllCommand, adoptContext_readAllData] at e1 e2 e3 e4 e5
          refine ⟨?_, ?_, e3, ?_, ?_⟩
          · rw [e1]; simp [pdvCommandValues, hc, List.append_assoc]
          · rw [e2]; simp [pdvDataValues, hc]
          · rw [e4]; simp [List.any_cons, hc, Bool.or_assoc]
          · rw [e5]; simp [List.any_cons, hc]
      · rename_i hctx hc
        rw [Bool.not_eq_true] at hc
        split at h
        · exact Except.noConfusion h
        · obtain ⟨e1, e2, e3, e4, e5⟩ := ih _ _ h
          simp only [adoptContext_commandBytes, adoptContext_dataBytes, adoptContext_command,
            adoptContext_readAllCommand, adoptContext_readAllData] at e1 e2 e3 e4 e5
          refine ⟨?_, ?_, e3, ?_, ?_⟩
          · rw [e1]; simp [pdvCommandValues, hc]
          · rw [e2]; simp [pdvDataValues, hc, List.append_assoc]
          · rw [e4]; simp [List.any_cons, hc]
          · rw [e5]; simp [List.any_cons, hc, Bool.or_assoc]

/-- Helper: a PDU with no command PDV contributes no command bytes. -/
theorem pdvCommandValues_eq_nil : ∀ (items : List PDVItem),
    items.any (fun i => i.command) = false → pdvCommandValues items = [] := by
  intro items
  induction items with
  | nil => intro _; rfl
  | cons i rest ih =>
    intro h
    simp only [List.any_cons, Bool.or_eq_false_iff] at h
    simp [pdvCommandValues, h.1, ih h.2]

/-- Helper: an `incomplete` outcome of `afterDecode` keeps the state. -/
theorem afterDecode_incomplete_state (cmap : List contextIDMapEntry)
    (a : dimseCommandAssembler) (c : DIMSEMessage) (s2 : dimseCommandAssembler)
    (h : afterDecode cmap a c = (s2, .incomplete)) : s2 = a := by
  unfold afterDecode at h
  split at h
  · simp at h
  · split at h
    · simp only [Prod.mk.injEq] at h
      exact h.1.symm
    · simp at h

/-- Helper: characterization of an `incomplete` addPDataTF call: bytes
accumulate, and the cached command either survives unchanged or was just
decoded from the accumulated command bytes. -/
theorem addPDataTF_incomplete_spec (a : dimseCommandAssembler) (p : P_DATA_TF)
    (cmap : List contextIDMapEntry) (a2 : dimseCommandAssembler)
    (h : addPDataTF a p cmap = (a2, .incomplete)) :
    a2.commandBytes = a.commandBytes ++ pdvCommandValues p.items ∧
    a2.dataBytes = a.dataBytes ++ pdvDataValues p.items ∧
    a2.readAllCommand = (a.readAllCommand || hasLastCmdItem p) ∧
    (a2.command = a.command ∨
     (a.command = none ∧ a2.readAllCommand = true ∧
      ∃ c0, a2.command = some c0 ∧ DecodeDIMSEMessage a2.commandBytes = .ok c0)) := by
  unfold addPDataTF at h
  split at h
  · simp at h
  · rename_i a1 heq
    obtain ⟨e1, e2, e3, e4, e5⟩ := addItems_ok_spec p.items a a1 heq
    unfold finishAssembly at h
    split at h
    · simp only [Prod.mk.injEq] at h
      obtain ⟨h1, -⟩ := h
      subst h1
      exact ⟨e1, e2, e4, Or.inl e3⟩
    · rename_i hrac
      rw [Bool.not_eq_false] at hrac
      split at h
      · rename_i c0 hcmd
        have h2 := afterDecode_incomplete_state _ _ _ _ h
        subst h2
        exact ⟨e1, e2, e4, Or.inl e3⟩
      · rename_i hcmd
        split at h
        · simp at h
        · simp at h
        · rename_i c0 hdec
          have h2 := afterDecode_incomplete_state _ _ _ _ h
          subst h2
          refine ⟨e1, e2, e4, Or.inr ⟨e3 ▸ hcmd, ?_, c0, rfl, hdec⟩⟩
          show a1.readAllCommand = true
          exact hrac

/-- Helper: characterization of an `emit` addPDataTF call: the emitted
data bytes are the accumulated data bytes, and the emitted command is
either the previously cached one or was just decoded from the accumulated
command bytes. -/
theorem addPDataTF_emit_spec (a : dimseCommandAssembler) (p : P_DATA_TF)
    (cmap : List contextIDMapEntry) (s2 : dimseCommandAssembler)
    (syn : String) (c : DIMSEMessage) (d : List DicomElement)
    (h : addPDataTF a p cmap = (s2, .emit syn c d)) :
    d = a.dataBytes ++ pdvDataValues p.items ∧
    (a.command = some c ∨
     (a.command = none ∧
      DecodeDIMSEMessage (a.commandBytes ++ pdvCommandValues p.items) = .ok c)) := by
  unfold addPDataTF at h
  split at h
  · simp at h
  · rename_i a1 heq
    obtain ⟨e1, e2, e3, e4, e5⟩ := addItems_ok_spec p.items a a1 heq
    unfold finishAssembly at h
    split at h
    · simp at h
    · split at h
      · rename_i c0 hcmd
        obtain ⟨-, hcc, hd⟩ := afterDecode_emit_state _ _ _ _ _ _ _ h
        subst hcc
        exact ⟨by rw [hd, e2], Or.inl (by rw [← e3]; exact hcmd)⟩
      · rename_i hcmd
        split at h
        · simp at h
        · simp at h
        · rename_i c0 hdec
          obtain ⟨-, hcc, hd⟩ := afterDecode_emit_state _ _ _ _ _ _ _ h
          subst hcc
          refine ⟨?_, Or.inr ⟨e3 ▸ hcmd, ?_⟩⟩
          · rw [hd]
            show a1.dataBytes = a.dataBytes ++ pdvDataValues p.items
            exact e2
          · rw [← e1]
            exact hdec

/-- Helper: main invariant induction for claim C7.  Starting from a state
whose cached command (if any) was decoded from its current commandBytes,
run calls that all return the all-nil quadruple, then one call that
emits: under the well-fragmented condition, the emitted command is the
decode of all accumulated command values and the emitted data bytes are
all accumulated data values. -/
theorem runNone_emit_spec (cmap : List contextIDMapEntry) (pf : P_DATA_TF) :
    ∀ (pdus : List P_DATA_TF) (a : dimseCommandAssembler) (seen : Bool)
      (s s2 : dimseCommandAssembler) (syn : String) (c : DIMSEMessage)
      (d : List DicomElement),
    (∀ c0, a.command = some c0 → DecodeDIMSEMessage a.commandBytes = .ok c0) →
    (a.command = none ∨ a.readAllCommand = true) →
    (a.readAllCommand = true → seen = true) →
    noCmdAfter seen (pdus ++ [pf]) = true →
    runNone cmap a pdus = some s →
    addPDataTF s pf cmap = (s2, .emit syn c d) →
    DecodeDIMSEMessage (a.commandBytes ++ pduCommandValues (pdus ++ [pf])) = .ok c ∧
    d = a.dataBytes ++ pduDataValues (pdus ++ [pf]) := by
  intro pdus
  induction pdus with
  | nil =>
    intro a seen s s2 syn c d hinv hdis hseen hW hrun hemit
    simp only [runNone] at hrun
    injection hrun with hrun
    subst hrun
    obtain ⟨hd, hcase⟩ := addPDataTF_emit_spec _ _ _ _ _ _ _ hemit
    constructor
    · rcases hcase with hcached | ⟨hnone, hdec⟩
      · have hrac : a.readAllCommand = true := by
          rcases hdis with h0 | h0
          · rw [h0] at hcached; exact Option.noConfusion hcached
          · exact h0
        rw [hseen hrac] at hW
        simp only [List.nil_append, noCmdAfter, Bool.and_true] at hW
        have hnc : hasCmdItem pf = false := by simpa using hW
        have hvals : pdvCommandValues pf.items = [] := pdvCommandValues_eq_nil _ hnc
        have hAd := hinv c hcached
        simpa [pduCommandValues, hvals] using hAd
      · simpa [pduCommandValues] using hdec
    · simpa [pduDataValues] using hd
  | cons p ps ih =>
    intro a seen s s2 syn c d hinv hdis hseen hW hrun hemit
    simp only [runNone] at hrun
    cases hstep : addPDataTF a p cmap with
    | mk a1 r =>
      rw [hstep] at hrun
      cases r with
      | incomplete =>
        obtain ⟨hb, hdb, hrc, hcmd⟩ := addPDataTF_incomplete_spec _ _ _ _ hstep
        simp only [List.cons_append, noCmdAfter, Bool.and_eq_true] at hW
        obtain ⟨hWhead, hWtail⟩ := hW
        have hinv1 : ∀ c0, a1.command = some c0 →
            DecodeDIMSEMessage a1.commandBytes = .ok c0 := by
          intro c0 h0
          rcases hcmd with hs1 | ⟨hnone, hrac1, c1, hc1, hdec1⟩
          · rw [hs1] at h0
            have hAd := hinv c0 h0
            have hrac : a.readAllCommand = true := by
              rcases hdis with hx | hx
              · rw [hx] at h0; exact Option.noConfusion h0
              · exact hx
            rw [hseen hrac] at hWhead
            have hnc : hasCmdItem p = false := by simpa using hWhead
            have hvals : pdvCommandValues p.items = [] := pdvCommandValues_eq_nil _ hnc
            rw [hb, hvals, List.append_nil]
            exact hAd
          · rw [hc1] at h0
            injection h0 with h0
            subst h0
            exact hdec1
        have hdis1 : a1.command = none ∨ a1.readAllCommand = true := by
          rcases hcmd with hs1 | ⟨hnone, hrac1, c1, hc1, hdec1⟩
          · rcases hdis with hx | hx
            · exact Or.inl (hs1.trans hx)
            · exact Or.inr (by rw [hrc, hx]; rfl)
          · exact Or.inr hrac1
        have hseen1 : a1.readAllCommand = true → (seen || hasLastCmdItem p) = true := by
          intro hx
          rw [hrc] at hx
          cases hra : a.readAllCommand with
          | true => rw [hseen hra]; rfl
          | false =>
            rw [hra] at hx
            simp only [Bool.false_or] at hx
            rw [hx]
            simp
        obtain ⟨H1, H2⟩ := ih a1 (seen || hasLastCmdItem p) s s2 syn c d
          hinv1 hdis1 hseen1 hWtail hrun hemit
        constructor
        · have hsplit : pduCommandValues ((p :: ps) ++ [pf]) =
              pdvCommandValues p.items ++ pduCommandValues (ps ++ [pf]) := rfl
          rw [hsplit, ← List.append_assoc, ← hb]
          exact H1
        · have hsplit : pduDataValues ((p :: ps) ++ [pf]) =
              pdvDataValues p.items ++ pduDataValues (ps ++ [pf]) := rfl
          rw [hsplit, ← List.append_assoc, ← hdb]
          exact H2
      | emit syn0 c0 d0 => exact Option.noConfusion hrun
      | err e0 => exact Option.noConfusion hrun
      | crash m0 => exact Option.noConfusion hrun

/-- C7 counterexample: a two-call assembly in which a command PDV arrives
after the call that completed (and decoded) the command.  The emitting
call returns the command decoded from the FIRST call's bytes only, which
differs from the decode of the full command-value concatenation (the
late fragment carries a MoveOriginatorMessageID element that changes the
decode), refuting the claim as stated. -/
theorem C7_late_command_fragment_counterexample :
    runNone [] emptyAssembler [pduRqData] =
      some ⟨1, rqDataElems, some (.storeRq rqDataMsg), [], true, false⟩ ∧
    addPDataTF ⟨1, rqDataElems, some (.storeRq rqDataMsg), [], true, false⟩ pduLateCmd [] =
      (emptyAssembler, .emit "" (.storeRq rqDataMsg) []) ∧
    DecodeDIMSEMessage (pduCommandValues [pduRqData, pduLateCmd]) =
      .ok (.storeRq ⟨"1.2", 9, 0, 1, "1.3", "", 5⟩) ∧
    DIMSEMessage.storeRq rqDataMsg ≠ .storeRq ⟨"1.2", 9, 0, 1, "1.3", "", 5⟩ := by
  refine ⟨rfl, rfl, rfl, by decide⟩

/-- C7 amended: for every sequence of addPDataTF calls that assembles one
complete message from the empty assembler, PROVIDED no command PDV
arrives in a call after the call carrying the last command fragment
(`noCmdAfter`), the emitted command is decoded from exactly the
concatenation, in arrival order, of all command-PDV values since the
last reset, and the returned dataBytes equal the concatenation, in
arrival order, of all data-PDV values since the last reset. -/
theorem C7_assembly_concatenation (cmap : List contextIDMapEntry)
    (pdus : List P_DATA_TF) (pf : P_DATA_TF) (s s2 : dimseCommandAssembler)
    (syn : String) (c : DIMSEMessage) (d : List DicomElement)
    (hW : noCmdAfter false (pdus ++ [pf]) = true)
    (hrun : runNone cmap emptyAssembler pdus = some s)
    (hemit : addPDataTF s pf cmap = (s2, .emit syn c d)) :
    DecodeDIMSEMessage (pduCommandValues (pdus ++ [pf])) = .ok c ∧
    d = pduDataValues (pdus ++ [pf]) := by
  have h := runNone_emit_spec cmap pf pdus emptyAssembler false s s2 syn c d
    (by intro c0 h0; exact Option.noConfusion h0)
    (Or.inl rfl)
    (by intro h0; exact Bool.noConfusion h0)
    hW hrun hemit
  simpa [emptyAssembler] using h

/-- Witness for C7: the single-call null-RSP assembly satisfies the
concatenation property. -/
theorem C7_assembly_concatenation_witness :
    DecodeDIMSEMessage (pduCommandValues ([] ++ [pduRspNull])) =
      .ok (.storeRsp rspNullMsg) ∧
    ([] : List DicomElement) = pduDataValues ([] ++ [pduRspNull]) :=
  C7_assembly_concatenation [] [] pduRspNull emptyAssembler emptyAssembler
    (contextIDToAbstractSyntaxName [] 1).1 (.storeRsp rspNullMsg) [] rfl rfl rfl

end Netdicom

